import Mathlib

/-!
Verification of the restaurant table-booking system.

The definitions below are a shallow embedding of the Python source:
`pg_driver.py` (the relational store), `models/table.py` and
`models/booking.py` (the availability engine and the booking lifecycle),
`backend.py` (a thin per-call delegation layer) and `gui.py` (the booking
tab of the desktop interface).

Conventions of the embedding:
- dates are `Nat` day numbers, ordered like calendar dates;
- times of day are `Nat` seconds since midnight;
- the ambient clock (`date.today()` / `datetime.now()` in Python) is passed
  explicitly as the parameters `today` and `now`;
- the database state is a `DB` structure; behaviour the Python code obtains
  from PostgreSQL rather than from its own lines (foreign-key enforcement
  on `bookings.user_id` and `bookings.table_id`, the row count returned by
  UPDATE and DELETE) is modelled directly on that structure;
- an operation that mutates the store returns its Python result paired with
  the successor state; a raised-and-caught store exception becomes the
  failure result with the state unchanged.
-/

namespace BookingSys

/-- A row of the `tables` table (`models/table.py`): id, unique table
number, seat count, and the administrative status string
(`available` or `unavailable`). -/
structure Table where
  id : Nat
  table_number : Nat
  seats : Nat
  status : String
deriving DecidableEq

/-- A row of the `bookings` table (`models/booking.py`): id, the two
foreign keys, date, time of day, status string
(`reserved`, `cancelled` or `pending`), and the two timestamps. -/
structure Booking where
  id : Nat
  user_id : Nat
  table_id : Nat
  booking_date : Nat
  booking_time : Nat
  status : String
  created_at : Nat
  updated_at : Nat
deriving DecidableEq

/-- The persisted state: the user ids present in `users`, the rows of
`tables` and `bookings`, and the next identity value the store will assign
to an inserted booking. -/
structure DB where
  users : List Nat
  tables : List Table
  bookings : List Booking
  next_booking_id : Nat
deriving DecidableEq

/-- `valid_statuses` of `BookingModel.create_booking` / `update_booking`. -/
def valid_statuses : List String := ["reserved", "cancelled", "pending"]

/-- `TableModel.get_table_by_id`: `select_one` on `tables` with
`where id = table_id` (the first matching row, if any). -/
def get_table_by_id (db : DB) (table_id : Nat) : Option Table :=
  db.tables.find? (fun t => t.id == table_id)

/-- The `time_diff` computation of `check_table_availability`: both times
of day are combined onto one common date, so the absolute difference in
seconds is the absolute difference of the seconds-since-midnight values. -/
def time_diff (a b : Nat) : Nat := max a b - min a b

/-- The raw query of `check_table_availability`: all bookings of this
table on exactly this date whose status is `reserved` or `pending`. -/
def active_bookings_on (db : DB) (table_id booking_date : Nat) : List Booking :=
  db.bookings.filter (fun b =>
    b.table_id == table_id && b.booking_date == booking_date &&
      (b.status == "reserved" || b.status == "pending"))

/-- `BookingModel.check_table_availability`: reject when the table is
absent; reject when its administrative status is `unavailable`; otherwise
reject exactly when some active booking on that date lies strictly within
3600 seconds of the requested time of day. -/
def check_table_availability (db : DB) (table_id booking_date booking_time : Nat) : Bool :=
  match get_table_by_id db table_id with
  | none => false
  | some t =>
    if t.status == "unavailable" then false
    else
      (active_bookings_on db table_id booking_date).all
        (fun b => ! decide (time_diff booking_time b.booking_time < 3600))

/-- Store-level foreign keys checked by PostgreSQL on a `bookings` insert:
`user_id` must reference `users(id)` and `table_id` must reference
`tables(id)`; a violation raises, which `create_booking` catches. -/
def booking_fk_ok (db : DB) (user_id table_id : Nat) : Bool :=
  db.users.contains user_id && db.tables.any (fun t => t.id == table_id)

/-- `BookingModel.create_booking`: reject an invalid status string, reject
a date strictly before today, then insert the row (both timestamps set to
now) and return the assigned id; a store-level constraint violation is
caught and yields `none` with the state unchanged. -/
def create_booking (db : DB) (today now : Nat)
    (user_id table_id booking_date booking_time : Nat) (status : String) :
    Option Nat × DB :=
  if ! valid_statuses.contains status then (none, db)
  else if booking_date < today then (none, db)
  else if ! booking_fk_ok db user_id table_id then (none, db)
  else
    (some db.next_booking_id,
     { db with
        bookings := db.bookings ++
          [⟨db.next_booking_id, user_id, table_id, booking_date, booking_time, status, now, now⟩],
        next_booking_id := db.next_booking_id + 1 })

/-- `backend.create_booking` invoked without an explicit status argument:
it forwards to `BookingModel.create_booking` with the default `"pending"`. -/
def create_booking_default_status
    (db : DB) (today now user_id table_id booking_date booking_time : Nat) :
    Option Nat × DB :=
  create_booking db today now user_id table_id booking_date booking_time "pending"

/-- The effect on one stored row of the partial-update dictionary built by
`BookingModel.update_booking`: each supplied field is overwritten, each
omitted field keeps its prior value, and `updated_at` is always set. -/
def apply_update (b : Booking) (now : Nat)
    (user_id table_id booking_date booking_time : Option Nat) (status : Option String) :
    Booking :=
  { b with
      user_id := user_id.getD b.user_id,
      table_id := table_id.getD b.table_id,
      booking_date := booking_date.getD b.booking_date,
      booking_time := booking_time.getD b.booking_time,
      status := status.getD b.status,
      updated_at := now }

/-- The past-date gate of `update_booking`: fires only when a date is
supplied and lies strictly before today. -/
def date_past (today : Nat) (booking_date : Option Nat) : Bool :=
  match booking_date with
  | none => false
  | some d => decide (d < today)

/-- The status gate of `update_booking`: fires only when a status is
supplied and is not one of the three valid strings. -/
def status_invalid (status : Option String) : Bool :=
  match status with
  | none => false
  | some s => ! valid_statuses.contains s

/-- The `len(data) == 1` test of `update_booking`: true when none of the
five optional fields was supplied, so `data` holds only `updated_at`. -/
def no_fields (user_id table_id booking_date booking_time : Option Nat)
    (status : Option String) : Bool :=
  user_id.isNone && table_id.isNone && booking_date.isNone &&
    booking_time.isNone && status.isNone

/-- Store-level foreign keys checked by PostgreSQL on a `bookings` update:
only supplied key fields are checked, and only when the update reaches a
row; a violation raises, which `update_booking` catches. -/
def update_fk_ok (db : DB) (user_id table_id : Option Nat) : Bool :=
  (match user_id with
   | none => true
   | some u => db.users.contains u) &&
  (match table_id with
   | none => true
   | some t => db.tables.any (fun tb => tb.id == t))

/-- `BookingModel.update_booking`: the past-date gate, the status gate and
the no-fields gate each return `False` with no store call; otherwise the
store updates every row whose id matches (zero or one) and the result is
whether the row count was positive. -/
def update_booking (db : DB) (today now booking_id : Nat)
    (user_id table_id booking_date booking_time : Option Nat) (status : Option String) :
    Bool × DB :=
  if date_past today booking_date then (false, db)
  else if status_invalid status then (false, db)
  else if no_fields user_id table_id booking_date booking_time status then (false, db)
  else if db.bookings.any (fun b => b.id == booking_id) &&
          ! update_fk_ok db user_id table_id then (false, db)
  else
    (db.bookings.any (fun b => b.id == booking_id),
     { db with bookings := db.bookings.map (fun b =>
        if b.id == booking_id then
          apply_update b now user_id table_id booking_date booking_time status
        else b) })

/-- `BookingsTab.create_booking` of `gui.py`, after the entered user name
and table number have been resolved to ids: a missing user or table is an
error; a table whose administrative status is `unavailable` is an error;
a `check_table_availability` verdict of REJECT is an error; otherwise the
backend is called with the status explicitly set to `"reserved"`. -/
def gui_create_booking (db : DB)
    (today now user_id table_id booking_date booking_time : Nat) :
    Option Nat × DB :=
  if ! db.users.contains user_id then (none, db)
  else
    match get_table_by_id db table_id with
    | none => (none, db)
    | some t =>
      if t.status == "unavailable" then (none, db)
      else if ! check_table_availability db table_id booking_date booking_time then (none, db)
      else create_booking db today now user_id table_id booking_date booking_time "reserved"

/-- Appending one booking row to the store, leaving everything else in the
state unchanged; used to state what one extra stored booking does. -/
def add_booking (db : DB) (b : Booking) : DB :=
  { db with bookings := db.bookings ++ [b] }

/-- One stored row of an arbitrary table in the relational store, as the
generic driver sees it: a column-name-to-value association. -/
abbrev Row := List (String × Int)

/-- The SQL `WHERE k = v AND ...` built by `PostgreSQLDriver.delete` from
its equality dictionary: every pair must match the row. -/
def row_matches (r : Row) (w : List (String × Int)) : Bool :=
  w.all (fun kv => r.lookup kv.fst == some kv.snd)

/-- The message of the `ValueError` raised by `PostgreSQLDriver.delete` on
an empty equality dictionary. -/
def delete_guard_msg : String := "WHERE conditions are required for DELETE"

/-- `PostgreSQLDriver.delete` acting on the named table's current rows: an
empty equality dictionary raises before any store call, leaving the rows
untouched; otherwise the matching rows are removed and their count is
returned as the row count. -/
def PostgreSQLDriver.delete (table_name : String) (rows : List Row)
    (w : List (String × Int)) : Except String Nat × List Row :=
  if w.isEmpty then (Except.error delete_guard_msg, rows)
  else
    (Except.ok (rows.filter (fun r => row_matches r w)).length,
     rows.filter (fun r => ! row_matches r w))

/-- Fixture: table id 1, number 7, four seats, administratively available. -/
def tbl_available : Table := ⟨1, 7, 4, "available"⟩

/-- Fixture: the same table marked administratively unavailable. -/
def tbl_unavailable : Table := ⟨1, 7, 4, "unavailable"⟩

/-- Fixture: a second table, id 2, number 8, two seats, available. -/
def tbl_two : Table := ⟨2, 8, 2, "available"⟩

/-- Fixture: a reserved booking on table 1 at 19:00 (68400 s) on day 100. -/
def bk_res : Booking := ⟨1, 1, 1, 100, 68400, "reserved", 0, 0⟩

/-- Fixture: a cancelled booking on table 1 at 19:00 (68400 s) on day 100. -/
def bk_cancel : Booking := ⟨1, 1, 1, 100, 68400, "cancelled", 0, 0⟩

/-- Fixture state: one user, one available table, no bookings. -/
def exDB : DB := ⟨[1], [tbl_available], [], 1⟩

/-- Fixture state: one user, one administratively unavailable table. -/
def exDB_unavail : DB := ⟨[1], [tbl_unavailable], [], 1⟩

/-- Fixture state: one user, one available table, one reserved booking at
19:00 on day 100. -/
def exDB_res : DB := ⟨[1], [tbl_available], [bk_res], 2⟩

/-- Fixture state for rescheduling: two tables; booking 1 is reserved on
table 2 at 19:00 on day 100, booking 2 sits on table 1 at 50000 s. -/
def exDB_two : DB := ⟨[1], [tbl_available, tbl_two],
  [⟨1, 1, 2, 100, 68400, "reserved", 0, 0⟩, ⟨2, 1, 1, 100, 50000, "reserved", 0, 0⟩], 3⟩

/-- Fixture rows of a generic store table, keyed by an `id` column. -/
def exRows : List Row := [[("id", 1)], [("id", 2)]]

/-- Splitting a list by a Boolean predicate preserves the length. -/
theorem length_filter_not_add {α : Type} (l : List α) (p : α → Bool) :
    (l.filter (fun a => ! p a)).length + (l.filter p).length = l.length := by
  induction l with
  | nil => rfl
  | cons a l ih =>
    cases h : p a <;> simp [List.filter_cons, h] <;> omega

/-- A successful `create_booking` appends exactly one row, built from its
arguments with the next identity value, and returns that id. -/
theorem create_booking_insert (db : DB) (today now u t d tm : Nat) (st : String)
    (bid : Nat) (db' : DB)
    (h : create_booking db today now u t d tm st = (some bid, db')) :
    db'.bookings = db.bookings ++ [⟨db.next_booking_id, u, t, d, tm, st, now, now⟩] ∧
    bid = db.next_booking_id := by
  unfold create_booking at h
  split at h
  · simp at h
  · split at h
    · simp at h
    · split at h
      · simp at h
      · rw [Prod.mk.injEq] at h
        obtain ⟨h1, h2⟩ := h
        subst h2
        exact ⟨rfl, (Option.some.inj h1).symm⟩

/-- C3: `check_table_availability` returns REJECT when the table id does
not resolve to a row, and REJECT when the fetched table's administrative
status is `unavailable`, for every date and time and regardless of the
stored bookings: both gates fire before any booking data is examined. -/
theorem availability_rejects_missing_or_unavailable_table
    (db : DB) (table_id booking_date booking_time : Nat) :
    (get_table_by_id db table_id = none →
      check_table_availability db table_id booking_date booking_time = false) ∧
    (∀ t, get_table_by_id db table_id = some t → t.status = "unavailable" →
      check_table_availability db table_id booking_date booking_time = false) := by
  constructor
  · intro h
    simp [check_table_availability, h]
  · intro t ht hs
    simp [check_table_availability, ht, hs]

/-- C3 witness: in the one-table fixture, table id 2 is absent so the
check rejects; in the unavailable-table fixture, table 1 is fetched with
status `unavailable` and the check rejects with zero stored bookings. -/
theorem availability_rejects_missing_or_unavailable_table_witness :
    check_table_availability exDB 2 100 68400 = false ∧
    check_table_availability exDB_unavail 1 100 68400 = false :=
  ⟨(availability_rejects_missing_or_unavailable_table exDB 2 100 68400).1 (by decide),
   (availability_rejects_missing_or_unavailable_table exDB_unavail 1 100 68400).2
     tbl_unavailable (by decide) rfl⟩

/-- C6: for a date strictly before today, `create_booking` returns `none`
with the state unchanged whatever the other arguments are, and
`update_booking` given that date returns `False` with the state unchanged
whatever the other arguments are. -/
theorem past_date_rejected (db db2 : DB) (today now u t bid d tm : Nat) (st : String)
    (u' t' tm' : Option Nat) (s' : Option String) (h : d < today) :
    create_booking db today now u t d tm st = (none, db) ∧
    update_booking db2 today now bid u' t' (some d) tm' s' = (false, db2) := by
  constructor
  · unfold create_booking
    cases hc : valid_statuses.contains st
    · simp
    · simp [h]
  · unfold update_booking
    simp [date_past, h]

/-- C6 witness: with today = 10, day 5 is in the past, so creation on the
empty fixture fails without a row and an update of booking 1 supplying
that date fails without a write. -/
theorem past_date_rejected_witness :
    create_booking exDB 10 0 1 1 5 68400 "pending" = (none, exDB) ∧
    update_booking exDB_res 10 0 1 none none (some 5) none none = (false, exDB_res) :=
  past_date_rejected exDB exDB_res 10 0 1 1 1 5 68400 "pending" none none none none
    (by decide)

/-- C10: an `update_booking` call with every optional field omitted fails
with `False` before any store call: the state, timestamps included, is
returned unchanged. -/
theorem update_all_none_fails (db : DB) (today now booking_id : Nat) :
    update_booking db today now booking_id none none none none none = (false, db) := rfl

/-- C4: for an existing table that is administratively `available`, the
availability check returns REJECT exactly when some active booking of
that table on that date lies strictly within 3600 seconds of the
requested time of day, returns ADMIT when every such candidate is 3600
seconds or more away, and returns ADMIT when there is no candidate. -/
theorem availability_one_hour_strict (db : DB) (table_id booking_date booking_time : Nat)
    (t : Table) (ht : get_table_by_id db table_id = some t) (hs : t.status = "available") :
    (((active_bookings_on db table_id booking_date).any
        (fun b => decide (time_diff booking_time b.booking_time < 3600))) = true →
      check_table_availability db table_id booking_date booking_time = false) ∧
    (((active_bookings_on db table_id booking_date).all
        (fun b => decide (3600 ≤ time_diff booking_time b.booking_time))) = true →
      check_table_availability db table_id booking_date booking_time = true) ∧
    (active_bookings_on db table_id booking_date = [] →
      check_table_availability db table_id booking_date booking_time = true) := by
  have hne : (t.status == "unavailable") = false := by rw [hs]; decide
  refine ⟨?_, ?_, ?_⟩
  · intro h
    simp only [check_table_availability, ht, hne, Bool.false_eq_true, if_false]
    rw [List.all_eq_false]
    obtain ⟨b, hb, hbp⟩ := List.any_eq_true.mp h
    exact ⟨b, hb, by simpa using of_decide_eq_true hbp⟩
  · intro h
    simp only [check_table_availability, ht, hne, Bool.false_eq_true, if_false]
    rw [List.all_eq_true]
    intro b hb
    have := of_decide_eq_true (List.all_eq_true.mp h b hb)
    simpa using Nat.not_lt.mpr this
  · intro h
    simp [check_table_availability, ht, hne, h]

/-- C4 witness, the concrete scenario of the specification: with a
reserved booking at 19:00 (68400 s) on day 100, a request at 19:30
(70200 s, 1800 s away) is rejected, a request at 20:00 (72000 s, exactly
3600 s away) is admitted, and a request on day 101, where no candidate
booking exists, is admitted. -/
theorem availability_one_hour_strict_witness :
    check_table_availability exDB_res 1 100 70200 = false ∧
    check_table_availability exDB_res 1 100 72000 = true ∧
    check_table_availability exDB_res 1 101 68400 = true :=
  ⟨(availability_one_hour_strict exDB_res 1 100 70200 tbl_available (by decide) rfl).1
     (by decide),
   (availability_one_hour_strict exDB_res 1 100 72000 tbl_available (by decide) rfl).2.1
     (by decide),
   (availability_one_hour_strict exDB_res 1 101 68400 tbl_available (by decide) rfl).2.2
     (by decide)⟩

/-- C5: adding a booking whose status is `cancelled` never changes the
availability verdict, because the conflict scan only fetches bookings of
the requested table on the exact requested date whose status is
`reserved` or `pending`; a cancelled row is never among the candidates. -/
theorem cancelled_bookings_invisible (db : DB) (b : Booking) (hb : b.status = "cancelled")
    (table_id booking_date booking_time : Nat) :
    check_table_availability (add_booking db b) table_id booking_date booking_time =
      check_table_availability db table_id booking_date booking_time ∧
    b ∉ active_bookings_on (add_booking db b) table_id booking_date ∧
    (∀ b2 ∈ active_bookings_on db table_id booking_date,
      (b2.status = "reserved" ∨ b2.status = "pending") ∧
        b2.booking_date = booking_date ∧ b2.table_id = table_id) := by
  have hst : (b.status == "reserved" || b.status == "pending") = false := by
    rw [hb]; decide
  have hpred : (b.table_id == table_id && b.booking_date == booking_date &&
      (b.status == "reserved" || b.status == "pending")) = false := by
    rw [hst, Bool.and_false]
  have hact : active_bookings_on (add_booking db b) table_id booking_date =
      active_bookings_on db table_id booking_date := by
    simp [active_bookings_on, add_booking, List.filter_append, List.filter_cons, hpred]
  have hget : get_table_by_id (add_booking db b) table_id = get_table_by_id db table_id := rfl
  refine ⟨?_, ?_, ?_⟩
  · simp only [check_table_availability, hget, hact]
  · intro hmem
    simp only [active_bookings_on, add_booking] at hmem
    have h2 : (b.table_id == table_id && b.booking_date == booking_date &&
        (b.status == "reserved" || b.status == "pending")) = true :=
      (List.mem_filter.mp hmem).2
    rw [hpred] at h2
    simp at h2
  · intro b2 hmem
    simp only [active_bookings_on] at hmem
    have h3 : (b2.table_id == table_id && b2.booking_date == booking_date &&
        (b2.status == "reserved" || b2.status == "pending")) = true :=
      (List.mem_filter.mp hmem).2
    simp only [Bool.and_eq_true, Bool.or_eq_true, beq_iff_eq] at h3
    exact ⟨h3.2, h3.1.2, h3.1.1⟩

/-- C5 witness: adding a cancelled booking at 19:00 on day 100 to the
empty fixture leaves the verdict for 19:00 on day 100 unchanged, and that
verdict is ADMIT despite the cancelled row at the exact requested time. -/
theorem cancelled_bookings_invisible_witness :
    check_table_availability (add_booking exDB bk_cancel) 1 100 68400 =
      check_table_availability exDB 1 100 68400 ∧
    check_table_availability (add_booking exDB bk_cancel) 1 100 68400 = true :=
  ⟨(cancelled_bookings_invisible exDB bk_cancel rfl 1 100 68400).1, by decide⟩

/-- C7: rescheduling an existing booking to a new table, date and time
succeeds and applies the change with no availability re-check: even under
the explicit premise that the new slot conflicts - some active booking of
the new table on the new date lies strictly within 3600 seconds of the
new time - `update_booking` returns `True` and writes the new slot. -/
theorem update_reschedule_skips_availability
    (db : DB) (today now booking_id new_table new_date new_time : Nat)
    (hex : db.bookings.any (fun b => b.id == booking_id) = true)
    (htb : db.tables.any (fun tb => tb.id == new_table) = true)
    (hd : today ≤ new_date)
    (hconf : (active_bookings_on db new_table new_date).any
        (fun b => decide (time_diff new_time b.booking_time < 3600)) = true) :
    update_booking db today now booking_id
        none (some new_table) (some new_date) (some new_time) none =
      (true,
       { db with bookings := db.bookings.map (fun b =>
          if b.id == booking_id then
            apply_update b now none (some new_table) (some new_date) (some new_time) none
          else b) }) := by
  have h1 : date_past today (some new_date) = false := by
    simp [date_past, decide_eq_false_iff_not]
    omega
  have h4 : update_fk_ok db none (some new_table) = true := by
    simp [update_fk_ok, htb]
  simp [update_booking, h1, h4, no_fields, status_invalid, hex]

/-- C7 witness: in the two-table fixture, booking 2 exists on table 1;
moving it to table 2, day 100, 69000 s succeeds and is written, although
that slot is only 600 s away from the active reserved booking 1 on table
2 at 68400 s, so the availability verdict for it is REJECT. -/
theorem update_reschedule_skips_availability_witness :
    update_booking exDB_two 0 99 2 none (some 2) (some 100) (some 69000) none =
      (true,
       { exDB_two with bookings := exDB_two.bookings.map (fun b =>
          if b.id == 2 then
            apply_update b 99 none (some 2) (some 100) (some 69000) none
          else b) }) ∧
    check_table_availability exDB_two 2 100 69000 = false :=
  ⟨update_reschedule_skips_availability exDB_two 0 99 2 2 100 69000
     (by decide) (by decide) (by decide) (by decide), by decide⟩

/-- C8: when `update_booking` reports success, the store holds exactly the
prior rows with the targeted row rewritten by the supplied fields, and the
rewrite touches, among the five optional columns, only the supplied ones:
each omitted field keeps its prior value and each supplied field takes the
supplied value. -/
theorem update_frame_effect (db : DB) (today now booking_id : Nat)
    (u t d tm : Option Nat) (s : Option String)
    (h : (update_booking db today now booking_id u t d tm s).1 = true) :
    (update_booking db today now booking_id u t d tm s).2.bookings =
      db.bookings.map (fun b =>
        if b.id == booking_id then apply_update b now u t d tm s else b) ∧
    ∀ b : Booking,
      (u = none → (apply_update b now u t d tm s).user_id = b.user_id) ∧
      (t = none → (apply_update b now u t d tm s).table_id = b.table_id) ∧
      (d = none → (apply_update b now u t d tm s).booking_date = b.booking_date) ∧
      (tm = none → (apply_update b now u t d tm s).booking_time = b.booking_time) ∧
      (s = none → (apply_update b now u t d tm s).status = b.status) ∧
      (∀ x, u = some x → (apply_update b now u t d tm s).user_id = x) ∧
      (∀ x, t = some x → (apply_update b now u t d tm s).table_id = x) ∧
      (∀ x, d = some x → (apply_update b now u t d tm s).booking_date = x) ∧
      (∀ x, tm = some x → (apply_update b now u t d tm s).booking_time = x) ∧
      (∀ x, s = some x → (apply_update b now u t d tm s).status = x) := by
  constructor
  · unfold update_booking at h ⊢
    split at h
    · simp at h
    · split at h
      · simp at h
      · split at h
        · simp at h
        · split at h
          · simp at h
          · rename_i h1 h2 h3 h4
            rw [if_neg h1, if_neg h2, if_neg h3, if_neg h4]
  · intro b
    refine ⟨?_, ?_, ?_, ?_, ?_, ?_, ?_, ?_, ?_, ?_⟩
    · intro hx; subst hx; rfl
    · intro hx; subst hx; rfl
    · intro hx; subst hx; rfl
    · intro hx; subst hx; rfl
    · intro hx; subst hx; rfl
    · intro x hx; subst hx; rfl
    · intro x hx; subst hx; rfl
    · intro x hx; subst hx; rfl
    · intro x hx; subst hx; rfl
    · intro x hx; subst hx; rfl

/-- C8 witness: updating only the time of booking 1 in the one-booking
fixture succeeds, the store rewrite touches only that row, and the
untouched columns of the rewritten row keep their prior values. -/
theorem update_frame_effect_witness :
    (update_booking exDB_res 0 99 1 none none none (some 70000) none).2.bookings =
      exDB_res.bookings.map (fun b =>
        if b.id == 1 then apply_update b 99 none none none (some 70000) none else b) :=
  (update_frame_effect exDB_res 0 99 1 none none none (some 70000) none (by decide)).1

/-- C1 counterexample: on the empty fixture the availability verdict for
table 1, day 5, 36000 s is ADMIT, yet `backend.create_booking` invoked
without an explicit status persists the row with status `pending`, not
`reserved`: the claimed forcing of `reserved` does not happen in
`backend.create_booking` / `BookingModel.create_booking`. -/
theorem create_booking_default_persists_pending_cex :
    check_table_availability exDB 1 5 36000 = true ∧
    (create_booking_default_status exDB 0 0 1 1 5 36000).1 = some 1 ∧
    ((create_booking_default_status exDB 0 0 1 1 5 36000).2.bookings.map Booking.status)
      = ["pending"] := by decide

/-- C1 amended: a `backend.create_booking` / `BookingModel.create_booking`
call without an explicit status persists the row with the column-default
status `pending`; it is the GUI booking workflow, which always supplies
`status = "reserved"` explicitly after its availability gates pass, whose
persisted row has status `reserved` and never `pending`. -/
theorem create_default_pending_gui_reserved (db : DB)
    (today now user_id table_id booking_date booking_time bid : Nat) (db' : DB) :
    (create_booking_default_status db today now user_id table_id booking_date booking_time
        = (some bid, db') →
      ∃ b, db'.bookings = db.bookings ++ [b] ∧ b.status = "pending" ∧ b.id = bid) ∧
    (gui_create_booking db today now user_id table_id booking_date booking_time
        = (some bid, db') →
      ∃ b, db'.bookings = db.bookings ++ [b] ∧ b.status = "reserved" ∧ b.id = bid) := by
  constructor
  · intro h
    obtain ⟨h1, h2⟩ := create_booking_insert db today now user_id table_id
      booking_date booking_time "pending" bid db' h
    exact ⟨_, h1, rfl, by rw [h2]⟩
  · intro h
    unfold gui_create_booking at h
    split at h
    · simp at h
    · split at h
      · simp at h
      · split at h
        · simp at h
        · split at h
          · simp at h
          · obtain ⟨h1, h2⟩ := create_booking_insert db today now user_id table_id
              booking_date booking_time "reserved" bid db' h
            exact ⟨_, h1, rfl, by rw [h2]⟩

/-- C1 amended witness: on the empty fixture both creation paths succeed
for table 1, day 5, 36000 s; the backend default path persists `pending`
and the GUI path persists `reserved`. -/
theorem create_default_pending_gui_reserved_witness :
    (∃ b, (create_booking_default_status exDB 0 0 1 1 5 36000).2.bookings =
        exDB.bookings ++ [b] ∧ b.status = "pending" ∧ b.id = 1) ∧
    (∃ b, (gui_create_booking exDB 0 0 1 1 5 36000).2.bookings =
        exDB.bookings ++ [b] ∧ b.status = "reserved" ∧ b.id = 1) :=
  ⟨(create_default_pending_gui_reserved exDB 0 0 1 1 5 36000 1
      (create_booking_default_status exDB 0 0 1 1 5 36000).2).1 (by decide),
   (create_default_pending_gui_reserved exDB 0 0 1 1 5 36000 1
      (gui_create_booking exDB 0 0 1 1 5 36000).2).2 (by decide)⟩

/-- C2 counterexample: on the fixture whose only table is administratively
unavailable the availability verdict is REJECT, yet
`BookingModel.create_booking` inserts the row and returns its id: the
model-level creation operation consults no availability engine at all. -/
theorem create_booking_ignores_availability_cex :
    check_table_availability exDB_unavail 1 100 68400 = false ∧
    (create_booking exDB_unavail 0 0 1 1 100 68400 "reserved").1 = some 1 ∧
    (create_booking exDB_unavail 0 0 1 1 100 68400 "reserved").2.bookings.length = 1 := by
  decide

/-- C2 amended: the GUI booking-creation flow, not
`BookingModel.create_booking`, is gated by the Availability Engine: on a
REJECT verdict it returns a rejection with the state unchanged, and
whenever it returns an id the verdict was ADMIT and exactly one row was
written. -/
theorem gui_create_gated_by_availability (db : DB)
    (today now user_id table_id booking_date booking_time : Nat) :
    (check_table_availability db table_id booking_date booking_time = false →
      gui_create_booking db today now user_id table_id booking_date booking_time
        = (none, db)) ∧
    (∀ bid db', gui_create_booking db today now user_id table_id booking_date booking_time
        = (some bid, db') →
      check_table_availability db table_id booking_date booking_time = true ∧
      db'.bookings.length = db.bookings.length + 1) := by
  constructor
  · intro hav
    unfold gui_create_booking
    split
    · rfl
    · split
      · rfl
      · split
        · rfl
        · rw [hav]
          simp
  · intro bid db' h
    unfold gui_create_booking at h
    split at h
    · simp at h
    · split at h
      · simp at h
      · split at h
        · simp at h
        · split at h
          · simp at h
          · rename_i hav
            have h1 := (create_booking_insert db today now user_id table_id
              booking_date booking_time "reserved" bid db' h).1
            refine ⟨?_, by simp [h1]⟩
            simpa using hav

/-- C2 amended witness: with the only table unavailable the verdict for
day 100, 68400 s is REJECT and the GUI flow returns a rejection with the
state unchanged; on the empty fixture the GUI flow returns an id for
table 1, day 5, 36000 s, the verdict there is ADMIT, and exactly one row
was written. -/
theorem gui_create_gated_by_availability_witness :
    gui_create_booking exDB_unavail 0 0 1 1 100 68400 = (none, exDB_unavail) ∧
    (check_table_availability exDB 1 5 36000 = true ∧
     (gui_create_booking exDB 0 0 1 1 5 36000).2.bookings.length =
       exDB.bookings.length + 1) :=
  ⟨(gui_create_gated_by_availability exDB_unavail 0 0 1 1 100 68400).1 (by decide),
   (gui_create_gated_by_availability exDB 0 0 1 1 5 36000).2 1
     (gui_create_booking exDB 0 0 1 1 5 36000).2 (by decide)⟩

/-- C9: for every table name and stored rows, the driver's delete raises
on an empty equality dictionary with the rows untouched; with a non-empty
dictionary it returns the count of the matching rows and keeps a row
exactly when it does not match, so exactly the matching rows are deleted. -/
theorem delete_with_filter_semantics (table_name : String) (rows : List Row)
    (w : List (String × Int)) :
    (w = [] →
      PostgreSQLDriver.delete table_name rows w = (Except.error delete_guard_msg, rows)) ∧
    (w ≠ [] → ∃ n remaining,
      PostgreSQLDriver.delete table_name rows w = (Except.ok n, remaining) ∧
      n = rows.countP (fun r => row_matches r w) ∧
      remaining.length + n = rows.length ∧
      (∀ r ∈ remaining, row_matches r w = false) ∧
      (∀ r ∈ rows, row_matches r w = false → r ∈ remaining)) := by
  constructor
  · intro h
    subst h
    rfl
  · intro h
    have hne : w.isEmpty = false := by
      cases w with
      | nil => exact absurd rfl h
      | cons a l => rfl
    refine ⟨(rows.filter (fun r => row_matches r w)).length,
            rows.filter (fun r => ! row_matches r w), ?_, ?_, ?_, ?_, ?_⟩
    · unfold PostgreSQLDriver.delete
      rw [hne]
      rfl
    · exact (List.countP_eq_length_filter _ _).symm
    · exact length_filter_not_add rows (fun r => row_matches r w)
    · intro r hr
      have h2 := (List.mem_filter.mp hr).2
      simpa using h2
    · intro r hr hm
      exact List.mem_filter.mpr ⟨hr, by simp [hm]⟩

/-- C9 witness: on two rows with ids 1 and 2, an empty dictionary yields
the guard error with both rows kept; the dictionary `id = 1` yields row
count 1 and keeps exactly the row that does not match. -/
theorem delete_with_filter_semantics_witness :
    PostgreSQLDriver.delete "bookings" exRows [] = (Except.error delete_guard_msg, exRows) ∧
    (∃ n remaining,
      PostgreSQLDriver.delete "bookings" exRows [("id", 1)] = (Except.ok n, remaining) ∧
      n = exRows.countP (fun r => row_matches r [("id", 1)]) ∧
      remaining.length + n = exRows.length ∧
      (∀ r ∈ remaining, row_matches r [("id", 1)] = false) ∧
      (∀ r ∈ exRows, row_matches r [("id", 1)] = false → r ∈ remaining)) :=
  ⟨(delete_with_filter_semantics "bookings" exRows []).1 rfl,
   (delete_with_filter_semantics "bookings" exRows [("id", 1)]).2 (by decide)⟩

end BookingSys
